import Mathlib

/-!
Verification of the custom `function-component-definition` lint rule
(`packages/plugin-react/src/rules/function-component-definition.js`).

The rule is embedded shallowly: the per-node data the rule reads from the
host engine's syntax tree is a Lean structure, source text is a `String`
sliced by character ranges, and every helper of the rule becomes a Lean
function with the same name and the same branch structure.  JavaScript
truthiness on the string-or-null values the rule manipulates is made
explicit (`none` and the empty string are falsy).
-/

namespace FCD

/-- The three declaration shapes the rule distinguishes.  The visitor map at
the bottom of the rule guarantees the `functionType` string passed to
`validate` always matches the node's AST `type`, so one tag serves both. -/
inductive Variant
  | functionDeclaration
  | arrowFunction
  | functionExpression
deriving DecidableEq, Repr

/-- The parent node kinds the rule inspects (`node.parent.type`); every
other parent kind behaves like `other`. -/
inductive ParentType
  | variableDeclarator
  | exportDefaultDeclaration
  | property
  | other
deriving DecidableEq, Repr

/-- A character range `[start, stop)` into the source text, as in the host
engine's `node.range`. -/
structure Range where
  start : Nat
  stop : Nat
deriving DecidableEq, Repr

/-- One element of `node.typeParameters.params`; the rule only reads whether
it has a `constraint`. -/
structure TypeParamNode where
  hasConstraint : Bool
deriving DecidableEq, Repr

/-- `node.typeParameters`: the parameter list and the node's own range
(used to slice its text). -/
structure TypeParamsNode where
  params : List TypeParamNode
  range : Range
deriving DecidableEq, Repr

/-- The identifier of an enclosing `VariableDeclarator` (`node.parent.id`):
its name and the range of its type annotation, when present. -/
structure IdNode where
  name : String
  typeAnnotation : Option Range
deriving DecidableEq, Repr

/-- `node.body`: whether it is a `BlockStatement`, and its range. -/
structure BodyNode where
  isBlock : Bool
  range : Range
deriving DecidableEq, Repr

/-- The slice of the syntax tree the rule reads for one visited function
node.  `stmtRange` is `node.parent.parent.range` (the enclosing variable
statement when the function is the initializer of a declarator). -/
structure FnNode where
  type : Variant
  parentType : ParentType
  parentId : Option IdNode
  selfId : Option String
  typeParameters : Option TypeParamsNode
  params : List Range
  returnType : Option Range
  body : BodyNode
  range : Range
  stmtRange : Range
deriving DecidableEq, Repr

/-- JavaScript `source.slice(a, b)` on the character level. -/
def slice (source : String) (r : Range) : String :=
  ((source.toList.drop r.start).take (r.stop - r.start)).asString

/-- JavaScript truthiness of a string-or-null value: `null`/`undefined` and
the empty string are falsy. -/
def truthy : Option String → Bool
  | some s => !s.isEmpty
  | none => false

/-- `parts[key] || ''` when a part is substituted into a template. -/
def orEmpty : Option String → String
  | some s => s
  | none => ""

/-- `String.prototype.replace` with a string pattern: replaces the first
occurrence of `pat` only (list-of-characters level). -/
def replaceFirstL (rep : List Char) : List Char → List Char → List Char
  | [], _ => []
  | c :: cs, pat =>
      if pat.isPrefixOf (c :: cs) then rep ++ (c :: cs).drop pat.length
      else c :: replaceFirstL rep cs pat

/-- `String.prototype.replace` with a string pattern (first occurrence). -/
def replaceFirst (s pat rep : String) : String :=
  (replaceFirstL rep.toList s.toList pat.toList).asString

/-- `buildFunction(template, parts)`: fold over the parts in insertion
order, replacing each `\x7bkey\x7d` placeholder with the part's text (empty
when the part is null). -/
def buildFunction (template : String) (parts : List (String × Option String)) : String :=
  parts.foldl
    (fun acc kv => replaceFirst acc ("\x7b" ++ kv.1 ++ "\x7d") (orEmpty kv.2))
    template

/-- `NAMED_FUNCTION_TEMPLATES`, keyed by target variant. -/
def NAMED_FUNCTION_TEMPLATES : Variant → String
  | .functionDeclaration =>
      "function \x7bname\x7d\x7btypeParams\x7d(\x7bparams\x7d)\x7breturnType\x7d \x7bbody\x7d"
  | .arrowFunction =>
      "var \x7bname\x7d\x7btypeAnnotation\x7d = \x7btypeParams\x7d(\x7bparams\x7d)\x7breturnType\x7d => \x7bbody\x7d"
  | .functionExpression =>
      "var \x7bname\x7d\x7btypeAnnotation\x7d = function\x7btypeParams\x7d(\x7bparams\x7d)\x7breturnType\x7d \x7bbody\x7d"

/-- `UNNAMED_FUNCTION_TEMPLATES`: the object has no `function-declaration`
key, so that lookup yields `none` (JavaScript `undefined`). -/
def UNNAMED_FUNCTION_TEMPLATES : Variant → Option String
  | .functionExpression =>
      some "function\x7btypeParams\x7d(\x7bparams\x7d)\x7breturnType\x7d \x7bbody\x7d"
  | .arrowFunction =>
      some "\x7btypeParams\x7d(\x7bparams\x7d)\x7breturnType\x7d => \x7bbody\x7d"
  | .functionDeclaration => none

/-- `hasOneUnconstrainedTypeParam(node)`. -/
def hasOneUnconstrainedTypeParam (node : FnNode) : Bool :=
  match node.typeParameters with
  | some tp =>
      match tp.params with
      | [p] => !p.hasConstraint
      | _ => false
  | none => false

/-- `hasName(node)`. -/
def hasName (node : FnNode) : Bool :=
  node.type == .functionDeclaration || node.parentType == .variableDeclarator

/-- `getNodeText(prop, source)`: `null` for an absent node, otherwise the
slice of its range. -/
def getNodeText (prop : Option Range) (source : String) : Option String :=
  prop.map (slice source)

/-- `getName(node)`: the declaration's own identifier for function
declarations, the enclosing declarator's identifier for named
arrow/function expressions, nothing otherwise. -/
def getName (node : FnNode) : Option String :=
  if node.type = .functionDeclaration then node.selfId
  else if node.type = .arrowFunction ∨ node.type = .functionExpression then
    if hasName node then node.parentId.map (·.name) else none
  else none

/-- `getParams(node, source)`: `null` for zero parameters, else the text
from the first parameter's start to the last parameter's end. -/
def getParams (node : FnNode) (source : String) : Option String :=
  match node.params with
  | [] => none
  | p :: ps => some (slice source ⟨p.start, (ps.getLastD p).stop⟩)

/-- `getBody(node, source)`: a block body is copied verbatim; an expression
body is wrapped as a block returning the expression, joined with newlines
and a two-space indent. -/
def getBody (node : FnNode) (source : String) : String :=
  if !node.body.isBlock then
    "\x7b" ++ "\n" ++ "  return " ++ slice source node.body.range ++ "\n" ++ "\x7d"
  else slice source node.body.range

/-- `getTypeAnnotation(node, source)`: the enclosing declarator
identifier's annotation text, only for named arrow/function expressions. -/
def getTypeAnnotation (node : FnNode) (source : String) : Option String :=
  if ¬hasName node ∨ node.type = .functionDeclaration then none
  else if node.type = .arrowFunction ∨ node.type = .functionExpression then
    match node.parentId with
    | some pid => getNodeText pid.typeAnnotation source
    | none => none
  else none

/-- `isDefaultExport(node)`. -/
def isDefaultExport (node : FnNode) : Bool :=
  node.type == .functionDeclaration && node.parentType == .exportDefaultDeclaration

/-- `isUnfixableBecauseOfExport(node)`. -/
def isUnfixableBecauseOfExport (node : FnNode) : Bool :=
  isDefaultExport node

/-- `isFunctionExpressionWithName(node)` (`node.id && node.id.name` is
truthy exactly when the identifier exists and its name is non-empty). -/
def isFunctionExpressionWithName (node : FnNode) : Bool :=
  node.type == .functionExpression && truthy node.selfId

/-- The rule's `messages` table. -/
def messages : Variant → String
  | .functionDeclaration => "Function component is not a function declaration"
  | .functionExpression => "Function component is not a function expression"
  | .arrowFunction => "Function component is not an arrow function"

/-- One of the rule's four option values: a bare string or an array
(`namedComponents` and friends accept either). -/
inductive OneOrMany
  | one (v : Variant)
  | many (vs : List Variant)
deriving DecidableEq, Repr

/-- The `defaultExport` sub-object of the rule options. -/
structure SubConfig where
  namedComponents : Option OneOrMany
  unnamedComponents : Option OneOrMany
deriving DecidableEq, Repr

/-- The rule options object (`context.options[0]`). -/
structure Options where
  namedComponents : Option OneOrMany
  unnamedComponents : Option OneOrMany
  defaultExport : Option SubConfig
deriving DecidableEq, Repr

/-- `[].concat(x || dflt)`: an absent option falls back to the default
string; a string becomes a one-element list; an array is kept as is. -/
def concatOr (x : Option OneOrMany) (dflt : Variant) : List Variant :=
  match x with
  | none => [dflt]
  | some (.one v) => [v]
  | some (.many vs) => vs

/-- The four shape lists computed at the top of `create`. -/
structure ResolvedConfig where
  defaultExportNamedConfig : List Variant
  defaultExportUnnamedConfig : List Variant
  namedConfig : List Variant
  unnamedConfig : List Variant
deriving DecidableEq, Repr

/-- The config resolution in `create`: `context.options[0] || {}`, then
`configuration.defaultExport || {}`, then the four `[].concat(...)`
defaulted lists. -/
def resolveConfig (options : Option Options) : ResolvedConfig :=
  let configuration := options.getD ⟨none, none, none⟩
  let defaultExportConfig := configuration.defaultExport.getD ⟨none, none⟩
  { defaultExportNamedConfig :=
      concatOr defaultExportConfig.namedComponents .functionDeclaration
    defaultExportUnnamedConfig :=
      concatOr defaultExportConfig.unnamedComponents .functionExpression
    namedConfig := concatOr configuration.namedComponents .functionDeclaration
    unnamedConfig := concatOr configuration.unnamedComponents .functionExpression }

/-- The `fixerOptions` object built in `applyConfig`.  `type` and
`template` are optional because `namedConfig[0]` on an empty configured
array is `undefined` in JavaScript. -/
structure FixerOptions where
  type : Option Variant
  template : Option String
  range : Range
deriving DecidableEq, Repr

/-- The range-and-text edit a produced fixer callback performs
(`fixer.replaceTextRange(options.range, buildFunction(...))`). -/
structure Fix where
  range : Range
  text : String
deriving DecidableEq, Repr

/-- `getFixer(node, options)`: four suppression guards, then a fixer that
replaces `options.range` with the filled template.  The parts list keeps
the JavaScript object-literal insertion order, which is the order
`buildFunction` substitutes in. -/
def getFixer (source : String) (node : FnNode) (options : FixerOptions) : Option Fix :=
  let typeAnnotation := getTypeAnnotation node source
  if options.type == some .functionDeclaration && truthy typeAnnotation then none
  else if options.type == some .arrowFunction && hasOneUnconstrainedTypeParam node then none
  else if isUnfixableBecauseOfExport node then none
  else if isFunctionExpressionWithName node then none
  else some
    { range := options.range
      text := buildFunction (orEmpty options.template)
        [ ("typeAnnotation", typeAnnotation)
        , ("typeParams", getNodeText (node.typeParameters.map (·.range)) source)
        , ("params", getParams node source)
        , ("returnType", getNodeText node.returnType source)
        , ("body", some (getBody node source))
        , ("name", getName node) ] }

/-- The options object `applyConfig` hands to `report`: the message key and
the fixer options. -/
structure ReportOptions where
  messageId : Option Variant
  fixerOptions : FixerOptions
deriving DecidableEq, Repr

/-- The diagnostic `report` passes to the reporting sink: the message key
and the optional fix callback (`getFixer`'s result). -/
structure Report where
  messageId : Option Variant
  fix : Option Fix
deriving DecidableEq, Repr

/-- The options of the `report` call in `applyConfig`'s named branch.
`namedConfig[0]` is read from the outer configuration, not from the applied
list. -/
def namedReportOptions (cfg : ResolvedConfig) (node : FnNode) : ReportOptions :=
  { messageId := cfg.namedConfig.head?
    fixerOptions :=
      { type := cfg.namedConfig.head?
        template := cfg.namedConfig.head?.map NAMED_FUNCTION_TEMPLATES
        range :=
          if node.type = .functionDeclaration then node.range
          else node.stmtRange } }

/-- The options of the `report` call in `applyConfig`'s unnamed branch.
`unnamedConfig[0]` is read from the outer configuration, not from the
applied list. -/
def unnamedReportOptions (cfg : ResolvedConfig) (node : FnNode) : ReportOptions :=
  { messageId := cfg.unnamedConfig.head?
    fixerOptions :=
      { type := cfg.unnamedConfig.head?
        template := cfg.unnamedConfig.head?.bind UNNAMED_FUNCTION_TEMPLATES
        range := node.range } }

/-- `applyConfig(node, appliedNameConfig, appliedUnnamedConfig)` up to the
call to `report`: decides whether to report and builds the report options. -/
def applyConfig (cfg : ResolvedConfig) (node : FnNode)
    (appliedNameConfig appliedUnnamedConfig : List Variant) : Option ReportOptions :=
  if hasName node && !(appliedNameConfig.contains node.type) then
    some (namedReportOptions cfg node)
  else if !hasName node && !(appliedUnnamedConfig.contains node.type) then
    some (unnamedReportOptions cfg node)
  else none

/-- `validate(node, functionType)` up to the call to `report`: skip
non-components and object-literal property values, then apply the
default-export configuration pair for default exports and the general pair
otherwise.  `isComponent` is the external `components.get(node)` query. -/
def validateOptions (cfg : ResolvedConfig) (isComponent : Bool) (node : FnNode) :
    Option ReportOptions :=
  if !isComponent then none
  else if node.parentType = .property then none
  else if isDefaultExport node then
    applyConfig cfg node cfg.defaultExportNamedConfig cfg.defaultExportUnnamedConfig
  else applyConfig cfg node cfg.namedConfig cfg.unnamedConfig

/-- The full per-node behaviour: the emitted diagnostic, if any, with the
fix callback `report` attaches via `getFixer`. -/
def validate (source : String) (cfg : ResolvedConfig) (isComponent : Bool)
    (node : FnNode) : Option Report :=
  (validateOptions cfg isComponent node).map fun o =>
    { messageId := o.messageId, fix := getFixer source node o.fixerOptions }

/-!  Spec-side definitions, used to compare the rule's behaviour against the
Policy Resolver contract of the specification. -/

/-- Spec-side: the shape list the specification says applies to a node —
the default-export pair when the node is a default export, else the general
pair, picking the named or unnamed list by whether the node is named. -/
def specSelectedList (cfg : ResolvedConfig) (node : FnNode) : List Variant :=
  if isDefaultExport node then
    if hasName node then cfg.defaultExportNamedConfig
    else cfg.defaultExportUnnamedConfig
  else
    if hasName node then cfg.namedConfig else cfg.unnamedConfig

/-- The first element of the general configuration's named or unnamed list
(`namedConfig[0]` / `unnamedConfig[0]`), which is what the code uses for
the message key and the fix-synthesis target. -/
def generalHead (cfg : ResolvedConfig) (node : FnNode) : Option Variant :=
  if hasName node then cfg.namedConfig.head? else cfg.unnamedConfig.head?

/-- A resolved configuration obtainable from schema-valid, non-degenerate
options: the unnamed lists may hold only `arrow-function` /
`function-expression` (the schema's enum), and the lists are non-empty (the
defaults always are; an explicitly empty array would make the produced
fixer callback throw on an undefined template). -/
structure ValidConfig (cfg : ResolvedConfig) : Prop where
  namedNe : cfg.namedConfig ≠ []
  unnamedNe : cfg.unnamedConfig ≠ []
  unnamedOk : ∀ v ∈ cfg.unnamedConfig,
    v = Variant.arrowFunction ∨ v = Variant.functionExpression

/-- Modelled from the spec: the host engine re-parses the file after a fix
is applied, a step outside this rule.  This captures the shape of the
function node that the chosen template's output parses to, read off the
templates themselves: a named `function-declaration` target yields a
standalone declaration; the other named targets yield a `var {name} = ...`
statement, so the function is the initializer of a variable declarator;
an unnamed target keeps the node's position (the replacement range is the
node's own range), except that an anonymous `function ...` placed directly
under a default-export wrapper re-parses as a (default-exported) function
declaration. -/
def refit (node : FnNode) (target : Variant) : FnNode :=
  if hasName node then
    match target with
    | .functionDeclaration =>
        { node with
          type := .functionDeclaration
          parentType := .other
          selfId := some ((getName node).getD "")
          parentId := none }
    | t =>
        { node with
          type := t
          parentType := .variableDeclarator
          selfId := none
          parentId := some ⟨(getName node).getD "", none⟩ }
  else
    if target = .functionExpression ∧
        node.parentType = .exportDefaultDeclaration then
      { node with
        type := .functionDeclaration
        selfId := none }
    else
      { node with
        type := target
        selfId := none }

/-!  Concrete instances, used by counterexamples and by the witnesses of the
theorems below. -/

/-- The default configuration (no rule options supplied). -/
def cfgDefault : ResolvedConfig := resolveConfig none

/-- Options `namedComponents: 'function-expression'`. -/
def cfgNamedFnExpr : ResolvedConfig :=
  resolveConfig (some ⟨some (.one .functionExpression), none, none⟩)

/-- Options `namedComponents: 'arrow-function'`. -/
def cfgNamedArrow : ResolvedConfig :=
  resolveConfig (some ⟨some (.one .arrowFunction), none, none⟩)

/-- Options `defaultExport: \x7b namedComponents: 'arrow-function' \x7d`
(everything else defaulted). -/
def cfgDefaultExportArrow : ResolvedConfig :=
  resolveConfig (some ⟨none, none, some ⟨some (.one .arrowFunction), none⟩⟩)

/-- The source text of the spec's synthesis scenario. -/
def srcAdd : String := "const Add = (a: number, b: number): number => a + b;"

/-- The arrow-function node of `srcAdd`, with the character ranges the host
parser assigns (`a: number` at 13–22, `b: number` at 24–33, the return-type
annotation `: number` at 34–42, the expression body `a + b` at 46–51, the
whole statement at 0–52). -/
def nodeAdd : FnNode :=
  { type := .arrowFunction
    parentType := .variableDeclarator
    parentId := some { name := "Add", typeAnnotation := none }
    selfId := none
    typeParameters := none
    params := [⟨13, 22⟩, ⟨24, 33⟩]
    returnType := some ⟨34, 42⟩
    body := { isBlock := false, range := ⟨46, 51⟩ }
    range := ⟨12, 51⟩
    stmtRange := ⟨0, 52⟩ }

/-- The replacement text the rule synthesizes for `nodeAdd` when the target
is `function-expression`. -/
def addFixText : String :=
  "var Add = function(a: number, b: number): number \x7b\n  return a + b\n\x7d"

/-- The replacement text the spec's scenario sentence claims. -/
def addClaimedText : String :=
  "var Add = function(a: number, b: number): number \x7b return a + b \x7d"

/-- `export default function Example() ...`: a default-exported named
function declaration. -/
def nodeDefaultExportDecl : FnNode :=
  { type := .functionDeclaration
    parentType := .exportDefaultDeclaration
    parentId := none
    selfId := some "Example"
    typeParameters := none
    params := []
    returnType := none
    body := { isBlock := true, range := ⟨34, 52⟩ }
    range := ⟨15, 52⟩
    stmtRange := ⟨0, 52⟩ }

/-- The source text `export default () => null;`. -/
def srcArrowDE : String := "export default () => null;"

/-- The unnamed arrow node of `srcArrowDE`, directly under the
default-export wrapper. -/
def nodeArrowDefaultExport : FnNode :=
  { type := .arrowFunction
    parentType := .exportDefaultDeclaration
    parentId := none
    selfId := none
    typeParameters := none
    params := []
    returnType := none
    body := { isBlock := false, range := ⟨21, 25⟩ }
    range := ⟨15, 25⟩
    stmtRange := ⟨0, 26⟩ }

/-- `const Example = function Example() { return null; };`: a self-named
function expression bound to a variable. -/
def nodeSelfNamed : FnNode :=
  { type := .functionExpression
    parentType := .variableDeclarator
    parentId := some { name := "Example", typeAnnotation := none }
    selfId := some "Example"
    typeParameters := none
    params := []
    returnType := none
    body := { isBlock := true, range := ⟨33, 50⟩ }
    range := ⟨16, 50⟩
    stmtRange := ⟨0, 52⟩ }

/-- A function expression that is the value of an object-literal property
(a method). -/
def nodePropertyValue : FnNode :=
  { type := .functionExpression
    parentType := .property
    parentId := none
    selfId := none
    typeParameters := none
    params := []
    returnType := none
    body := { isBlock := true, range := ⟨0, 0⟩ }
    range := ⟨0, 0⟩
    stmtRange := ⟨0, 0⟩ }

/-- `function Example() { return null; }`: a plain named declaration. -/
def nodePlainDecl : FnNode :=
  { type := .functionDeclaration
    parentType := .other
    parentId := none
    selfId := some "Example"
    typeParameters := none
    params := []
    returnType := none
    body := { isBlock := true, range := ⟨19, 36⟩ }
    range := ⟨0, 36⟩
    stmtRange := ⟨0, 36⟩ }

/-!  Helper lemmas about the embedded rule functions. -/

theorem hasName_iff (node : FnNode) :
    hasName node = true ↔
      node.type = .functionDeclaration ∨
      node.parentType = .variableDeclarator := by
  simp [hasName]

theorem isDefaultExport_iff (node : FnNode) :
    isDefaultExport node = true ↔
      node.type = .functionDeclaration ∧
      node.parentType = .exportDefaultDeclaration := by
  simp [isDefaultExport]

theorem isFunctionExpressionWithName_iff (node : FnNode) :
    isFunctionExpressionWithName node = true ↔
      node.type = .functionExpression ∧ truthy node.selfId = true := by
  simp [isFunctionExpressionWithName]

theorem getTypeAnnotation_truthy_iff (source : String) (node : FnNode) :
    truthy ( getTypeAnnotation node source) = true ↔
      node.type ≠ .functionDeclaration ∧
      node.parentType = .variableDeclarator ∧
      truthy ((node.parentId.bind IdNode.typeAnnotation).map (slice source))
        = true := by
  rcases node with ⟨ty, pt, pid, sid, tp, ps, rt, bd, rg, sr⟩
  cases ty <;> cases pt <;> cases pid <;>
    simp [ getTypeAnnotation, getNodeText, hasName, truthy, Option.bind]

theorem getFixer_eq_none_iff (source : String) (node : FnNode)
    (options : FixerOptions) :
    getFixer source node options = none ↔
      (options.type = some .functionDeclaration ∧
        truthy ( getTypeAnnotation node source) = true) ∨
      (options.type = some .arrowFunction ∧
        hasOneUnconstrainedTypeParam node = true) ∨
      isUnfixableBecauseOfExport node = true ∨
      isFunctionExpressionWithName node = true := by
  constructor
  · intro h
    simp only [getFixer] at h
    split at h
    · rename_i hc; left; simpa using hc
    · split at h
      · rename_i hc; right; left; simpa using hc
      · split at h
        · rename_i hc; right; right; left; simpa using hc
        · split at h
          · rename_i hc; right; right; right; simpa using hc
          · simp at h
  · intro h
    simp only [getFixer]
    split
    · rfl
    · split
      · rfl
      · split
        · rfl
        · split
          · rfl
          · rename_i h1 h2 h3 h4
            exfalso
            rcases h with h | h | h | h
            · exact h1 (by simp [h.1, h.2])
            · exact h2 (by simp [h.1, h.2])
            · exact h3 (by simpa using h)
            · exact h4 (by simpa using h)

theorem getFixer_range (source : String) (node : FnNode)
    (options : FixerOptions) (f : Fix)
    (h : getFixer source node options = some f) : f.range = options.range := by
  simp only [getFixer] at h
  split at h
  · exact absurd h (by simp)
  · split at h
    · exact absurd h (by simp)
    · split at h
      · exact absurd h (by simp)
      · split at h
        · exact absurd h (by simp)
        · injection h with h
          exact h ▸ rfl

theorem applyConfig_eq_some_iff (cfg : ResolvedConfig) (node : FnNode)
    (A U : List Variant) (o : ReportOptions) :
    applyConfig cfg node A U = some o ↔
      (hasName node = true ∧ node.type ∉ A ∧
        o = namedReportOptions cfg node) ∨
      (hasName node = false ∧ node.type ∉ U ∧
        o = unnamedReportOptions cfg node) := by
  unfold applyConfig
  cases hn : hasName node <;>
    by_cases hA : node.type ∈ A <;>
    by_cases hU : node.type ∈ U <;>
    simp [hn, hA, hU, eq_comm]

theorem validateOptions_eq_some_iff (cfg : ResolvedConfig) (c : Bool)
    (node : FnNode) (o : ReportOptions) :
    validateOptions cfg c node = some o ↔
      c = true ∧ node.parentType ≠ .property ∧
      ((isDefaultExport node = true ∧
          applyConfig cfg node cfg.defaultExportNamedConfig
            cfg.defaultExportUnnamedConfig = some o) ∨
        (isDefaultExport node = false ∧
          applyConfig cfg node cfg.namedConfig cfg.unnamedConfig = some o)) := by
  unfold validateOptions
  cases c <;> by_cases hp : node.parentType = .property <;>
    cases hde : isDefaultExport node <;> simp [hp, hde]

/-- Whatever branch produced a report's options, the message key and the
fix-synthesis target are the head of the general configuration's list for
the node's namedness. -/
theorem reportOptions_general (cfg : ResolvedConfig) (c : Bool)
    (node : FnNode) (o : ReportOptions)
    (h : validateOptions cfg c node = some o) :
    o.messageId = generalHead cfg node ∧
    o.fixerOptions.type = generalHead cfg node := by
  rcases (validateOptions_eq_some_iff cfg c node o).mp h with ⟨-, -, hb⟩
  rcases hb with ⟨-, ha⟩ | ⟨-, ha⟩ <;>
    rcases (applyConfig_eq_some_iff ..).mp ha with ⟨hn, -, ho⟩ | ⟨hn, -, ho⟩ <;>
    subst ho <;>
    simp [namedReportOptions, unnamedReportOptions, generalHead, hn]

/-- A node whose variant is in the list the specification selects for it is
never reported. -/
theorem conforming_no_report (source : String) (cfg : ResolvedConfig)
    (isComponent : Bool) (node : FnNode)
    (h : node.type ∈ specSelectedList cfg node) :
    validate source cfg isComponent node = none := by
  unfold validate
  suffices hv : validateOptions cfg isComponent node = none by simp [hv]
  cases hvo : validateOptions cfg isComponent node with
  | none => rfl
  | some o =>
    exfalso
    rcases (validateOptions_eq_some_iff ..).mp hvo with ⟨-, -, hb⟩
    unfold specSelectedList at h
    rcases hb with ⟨hde, ha⟩ | ⟨hde, ha⟩ <;>
      rcases (applyConfig_eq_some_iff ..).mp ha with ⟨hn, hni, -⟩ | ⟨hn, hni, -⟩ <;>
      simp [hde, hn] at h <;> exact hni h

/-!  Claim theorems. -/

/-- **C3.** For every function node whose observed variant is a member (at
any position) of the applicable configured shape list, no violation is
reported; conformance is plain list containment with no dependence on the
element's position. -/
theorem C3_conforming_in_list_no_report (source : String)
    (cfg : ResolvedConfig) (isComponent : Bool) (node : FnNode)
    (h : node.type ∈ specSelectedList cfg node) :
    validate source cfg isComponent node = none :=
  conforming_no_report source cfg isComponent node h

theorem C3_conforming_in_list_no_report_witness :
    nodePlainDecl.type ∈ specSelectedList cfgDefault nodePlainDecl ∧
    validate "" cfgDefault true nodePlainDecl = none :=
  ⟨by decide,
   C3_conforming_in_list_no_report "" cfgDefault true nodePlainDecl (by decide)⟩

/-- **C7.** When options are unspecified, the effective configurations are:
`namedComponents` defaults to the single shape `function-declaration`,
`unnamedComponents` defaults to the single shape `function-expression`, and
the `defaultExport` sub-options default to those same two values; a string
option is treated the same as a one-element list. -/
theorem C7_defaults :
    resolveConfig none =
      { defaultExportNamedConfig := [.functionDeclaration]
        defaultExportUnnamedConfig := [.functionExpression]
        namedConfig := [.functionDeclaration]
        unnamedConfig := [.functionExpression] } ∧
    ∀ (v d : Variant),
      concatOr (some (.one v)) d = concatOr (some (.many [v])) d :=
  ⟨rfl, fun _ _ => rfl⟩

/-- **C8.** For every function node whose immediate parent is an
object-literal property (a method value), the rule emits no diagnostic:
such nodes are skipped before classification and policy checking. -/
theorem C8_property_value_skipped (source : String) (cfg : ResolvedConfig)
    (isComponent : Bool) (node : FnNode)
    (h : node.parentType = .property) :
    validate source cfg isComponent node = none := by
  cases isComponent <;> simp [validate, validateOptions, h]

theorem C8_property_value_skipped_witness :
    nodePropertyValue.parentType = ParentType.property ∧
    validate "" cfgDefault true nodePropertyValue = none :=
  ⟨by decide,
   C8_property_value_skipped "" cfgDefault true nodePropertyValue (by decide)⟩

/-- **C9.** For every visited function node for which the external
component-detection query returns a falsy result, the rule emits no
diagnostic and offers no fix, regardless of the node's shape or the
configuration. -/
theorem C9_non_component_no_report (source : String) (cfg : ResolvedConfig)
    (node : FnNode) :
    validate source cfg false node = none := by
  simp [validate, validateOptions]

/-- **C10.** Every node classified as a default export is a function
declaration and therefore always counts as named, so the unnamed branch of
the default-export path is unreachable: the `defaultExport`
`unnamedComponents` configuration can never influence whether a violation
is reported or which message is emitted. -/
theorem C10_default_export_unnamed_unreachable :
    (∀ node : FnNode, isDefaultExport node = true → hasName node = true) ∧
    (∀ (source : String) (cfg : ResolvedConfig) (isComponent : Bool)
        (node : FnNode) (L : List Variant),
      validate source { cfg with defaultExportUnnamedConfig := L }
          isComponent node =
        validate source cfg isComponent node) := by
  constructor
  · intro node h
    exact (hasName_iff node).mpr (Or.inl ((isDefaultExport_iff node).mp h).1)
  · intro source cfg isComponent node L
    unfold validate validateOptions
    cases isComponent
    · simp
    · by_cases hp : node.parentType = .property
      · simp [hp]
      · cases hde : isDefaultExport node
        · simp [hp, hde, applyConfig, namedReportOptions, unnamedReportOptions]
        · have hn : hasName node = true :=
            (hasName_iff node).mpr (Or.inl ((isDefaultExport_iff node).mp hde).1)
          simp [hp, hde, applyConfig, hn, namedReportOptions]

theorem C10_default_export_unnamed_unreachable_witness :
    isDefaultExport nodeDefaultExportDecl = true ∧
    hasName nodeDefaultExportDecl = true :=
  ⟨by decide,
   C10_default_export_unnamed_unreachable.1 nodeDefaultExportDecl (by decide)⟩

/-- **C1, counterexample.** Under options
`defaultExport: \x7b namedComponents: 'arrow-function' \x7d`, a
default-exported function declaration is reported with message key
`function-declaration` — the head of the *general* named list — although
the head of the selected (default-export) list is `arrow-function`.  So
the emitted messageId does not equal the first element of the selected
list, refuting the claim as stated. -/
theorem C1_counterexample :
    (specSelectedList cfgDefaultExportArrow nodeDefaultExportDecl).head? =
      some .arrowFunction ∧
    validate "" cfgDefaultExportArrow true nodeDefaultExportDecl =
      some { messageId := some .functionDeclaration, fix := none } ∧
    some Variant.functionDeclaration ≠ some Variant.arrowFunction := by
  decide

/-- **C1, amended.** For every non-conforming function node, the
configuration pair for the conformance check is selected as the claim says
(default-export pair for default exports, else the general pair, picking
the named or unnamed list by namedness) — the reported node's variant is
absent from that selected list — but the emitted messageId and the target
variant used for fix synthesis both equal the first element of the
corresponding list of the *general* pair (`namedComponents` for named
nodes, `unnamedComponents` for unnamed ones), even when the default-export
pair was selected. -/
theorem C1_amended_policy (cfg : ResolvedConfig) (isComponent : Bool)
    (node : FnNode) (o : ReportOptions)
    (h : validateOptions cfg isComponent node = some o) :
    node.type ∉ specSelectedList cfg node ∧
    o.messageId = generalHead cfg node ∧
    o.fixerOptions.type = generalHead cfg node := by
  refine ⟨?_, reportOptions_general cfg isComponent node o h⟩
  rcases (validateOptions_eq_some_iff ..).mp h with ⟨-, -, hb⟩
  rcases hb with ⟨hde, ha⟩ | ⟨hde, ha⟩ <;>
    rcases (applyConfig_eq_some_iff ..).mp ha with ⟨hn, hni, -⟩ | ⟨hn, hni, -⟩ <;>
    simp [specSelectedList, hde, hn] <;> exact hni

theorem C1_amended_policy_witness :
    nodeDefaultExportDecl.type ∉
        specSelectedList cfgDefaultExportArrow nodeDefaultExportDecl ∧
    (namedReportOptions cfgDefaultExportArrow nodeDefaultExportDecl).messageId =
      generalHead cfgDefaultExportArrow nodeDefaultExportDecl :=
  ⟨(C1_amended_policy cfgDefaultExportArrow true nodeDefaultExportDecl
      (namedReportOptions cfgDefaultExportArrow nodeDefaultExportDecl)
      (by decide)).1,
   (C1_amended_policy cfgDefaultExportArrow true nodeDefaultExportDecl
      (namedReportOptions cfgDefaultExportArrow nodeDefaultExportDecl)
      (by decide)).2.1⟩

/-- **C2.** For every reported violation, the fix callback is absent
exactly when at least one of these four conditions holds — (1) the target
variant is `function-declaration` and the node's variable binding carries a
non-empty type annotation (a binding presupposes the node is the
expression-form initializer of a variable declarator), (2) the target
variant is `arrow-function` and the node has exactly one type parameter
with no constraint, (3) the node is a default-exported function
declaration, (4) the node is a function expression carrying its own
identifier — and the violation is reported either way, just without a fix
when one of them holds. -/
theorem C2_fix_suppression (source : String) (cfg : ResolvedConfig)
    (isComponent : Bool) (node : FnNode) (r : Report)
    (h : validate source cfg isComponent node = some r) :
    r.fix = none ↔
      (generalHead cfg node = some .functionDeclaration ∧
        node.type ≠ .functionDeclaration ∧
        node.parentType = .variableDeclarator ∧
        truthy ((node.parentId.bind IdNode.typeAnnotation).map (slice source))
          = true) ∨
      (generalHead cfg node = some .arrowFunction ∧
        hasOneUnconstrainedTypeParam node = true) ∨
      (node.type = .functionDeclaration ∧
        node.parentType = .exportDefaultDeclaration) ∨
      (node.type = .functionExpression ∧ truthy node.selfId = true) := by
  rw [validate, Option.map_eq_some'] at h
  obtain ⟨o, ho, hr⟩ := h
  obtain ⟨-, htype⟩ := reportOptions_general cfg isComponent node o ho
  subst hr
  show getFixer source node o.fixerOptions = none ↔ _
  rw [getFixer_eq_none_iff, htype]
  simp only [ getTypeAnnotation_truthy_iff, isUnfixableBecauseOfExport,
    isDefaultExport_iff, isFunctionExpressionWithName_iff]

theorem C2_fix_suppression_witness :
    validate "" cfgNamedArrow true nodeSelfNamed =
        some (Report.mk (some Variant.arrowFunction) none) ∧
    ((Report.mk (some Variant.arrowFunction) none).fix = none ↔
      (generalHead cfgNamedArrow nodeSelfNamed = some .functionDeclaration ∧
        nodeSelfNamed.type ≠ .functionDeclaration ∧
        nodeSelfNamed.parentType = .variableDeclarator ∧
        truthy ((nodeSelfNamed.parentId.bind IdNode.typeAnnotation).map
          (slice "")) = true) ∨
      (generalHead cfgNamedArrow nodeSelfNamed = some .arrowFunction ∧
        hasOneUnconstrainedTypeParam nodeSelfNamed = true) ∨
      (nodeSelfNamed.type = .functionDeclaration ∧
        nodeSelfNamed.parentType = .exportDefaultDeclaration) ∨
      (nodeSelfNamed.type = .functionExpression ∧
        truthy nodeSelfNamed.selfId = true)) :=
  ⟨by decide,
   C2_fix_suppression "" cfgNamedArrow true nodeSelfNamed
     (Report.mk (some Variant.arrowFunction) none) (by decide)⟩

/-- **C4, counterexample.** The synthesized replacement for the `Add`
scenario is not the claimed single-line string: `getBody` joins the block
with newlines and a two-space indent, so the body reads
`\x7b` ⟨newline⟩ `  return a + b` ⟨newline⟩ `\x7d`, not
`\x7b return a + b \x7d`. -/
theorem C4_counterexample :
    validate srcAdd cfgNamedFnExpr true nodeAdd =
      some (Report.mk (some .functionExpression)
        (some (Fix.mk ⟨0, 52⟩ addFixText))) ∧
    addFixText ≠ addClaimedText := by
  decide

/-- **C4, amended.** For the input
`const Add = (a: number, b: number): number => a + b;` with target variant
`function-expression`, the synthesized replacement is exactly
`var Add = function(a: number, b: number): number \x7b` ⟨newline⟩
`  return a + b` ⟨newline⟩ `\x7d`: the single-expression arrow body is
wrapped in a block that returns the expression, with the lines joined by
newlines and the return line indented two spaces. -/
theorem C4_amended_synthesis :
    (validate srcAdd cfgNamedFnExpr true nodeAdd).bind Report.fix =
      some (Fix.mk ⟨0, 52⟩ addFixText) := by
  decide

/-- **C5.** For every fix that is offered, the replacement range is the
node's own source range when the node is a function declaration, and the
range of the entire enclosing variable statement when the node is an arrow
function or function expression bound to a variable. -/
theorem C5_fix_range (source : String) (cfg : ResolvedConfig)
    (isComponent : Bool) (node : FnNode) (r : Report) (f : Fix)
    (h : validate source cfg isComponent node = some r)
    (hf : r.fix = some f) :
    (node.type = .functionDeclaration → f.range = node.range) ∧
    (node.type ≠ .functionDeclaration ∧
        node.parentType = .variableDeclarator →
      f.range = node.stmtRange) := by
  rw [validate, Option.map_eq_some'] at h
  obtain ⟨o, ho, hr⟩ := h
  subst hr
  replace hf : getFixer source node o.fixerOptions = some f := hf
  have hrange := getFixer_range source node o.fixerOptions f hf
  rcases (validateOptions_eq_some_iff ..).mp ho with ⟨-, -, hb⟩
  rcases hb with ⟨-, ha⟩ | ⟨-, ha⟩ <;>
      rcases (applyConfig_eq_some_iff ..).mp ha with ⟨hn, -, hoo⟩ | ⟨hn, -, hoo⟩ <;>
      subst hoo <;>
      refine ⟨fun ht => ?_, fun hpt => ?_⟩ <;>
    first
      | simpa [namedReportOptions, ht] using hrange
      | simpa [namedReportOptions, hpt.1] using hrange
      | simpa [unnamedReportOptions] using hrange
      | exact absurd ((hasName_iff node).mpr (Or.inr hpt.2)) (by simp [hn])

theorem C5_fix_range_witness :
    validate srcAdd cfgNamedFnExpr true nodeAdd =
        some (Report.mk (some .functionExpression)
          (some (Fix.mk ⟨0, 52⟩ addFixText))) ∧
    (Fix.mk (⟨0, 52⟩ : Range) addFixText).range = nodeAdd.stmtRange :=
  ⟨by decide,
   (C5_fix_range srcAdd cfgNamedFnExpr true nodeAdd
      (Report.mk (some .functionExpression)
        (some (Fix.mk ⟨0, 52⟩ addFixText)))
      (Fix.mk ⟨0, 52⟩ addFixText) (by decide) rfl).2
     ⟨by decide, by decide⟩⟩

/-- **C6, counterexample.** Round-trip stability fails: under options
`defaultExport: \x7b namedComponents: 'arrow-function' \x7d`, the unnamed
arrow of `export default () => null;` is non-conforming (unnamed list
defaults to `function-expression`), a fix targeting `function-expression`
is offered, but its output — an anonymous `function` directly under the
default-export wrapper — re-parses as a default-exported function
declaration, which the second pass checks against the default-export named
list and reports again. -/
theorem C6_counterexample :
    ((validate srcArrowDE cfgDefaultExportArrow true
          nodeArrowDefaultExport).bind Report.fix).isSome = true ∧
    generalHead cfgDefaultExportArrow nodeArrowDefaultExport =
      some .functionExpression ∧
    validate srcArrowDE cfgDefaultExportArrow true
        (refit nodeArrowDefaultExport .functionExpression) ≠ none := by
  decide

/-- **C6, amended.** For any non-conforming input rewritten to the
canonical shape by an offered fix and re-analyzed under the same (valid)
configuration, the second pass reports no violation for the rewritten
function — except in the one corner the counterexample exhibits: an
unnamed function directly under a default-export wrapper rewritten to
`function-expression` while `function-declaration` is absent from the
default-export named list. -/
theorem C6_roundtrip_amended (source source2 : String) (cfg : ResolvedConfig)
    (node : FnNode) (r : Report) (f : Fix) (target : Variant)
    (hv : ValidConfig cfg)
    (h : validate source cfg true node = some r)
    (hf : r.fix = some f)
    (ht : generalHead cfg node = some target)
    (hx : ¬(hasName node = false ∧
            node.parentType = .exportDefaultDeclaration ∧
            target = .functionExpression ∧
            Variant.functionDeclaration ∉ cfg.defaultExportNamedConfig)) :
    validate source2 cfg true (refit node target) = none := by
  apply conforming_no_report
  cases hn : hasName node with
  | true =>
      have htm : target ∈ cfg.namedConfig := by
        apply List.mem_of_mem_head?
        rw [Option.mem_def]
        simpa [generalHead, hn] using ht
      cases target with
      | functionDeclaration =>
          have h1 : (refit node .functionDeclaration).type =
              Variant.functionDeclaration := by
            simp [refit, hn]
          have h2 : (refit node .functionDeclaration).parentType =
              ParentType.other := by
            simp [refit, hn]
          have hde : isDefaultExport (refit node .functionDeclaration)
              = false := by
            simp [isDefaultExport, h2]
          have hnn : hasName (refit node .functionDeclaration) = true := by
            simp [hasName, h1]
          rw [specSelectedList]
          simp [hde, hnn, h1, htm]
      | arrowFunction =>
          have h1 : (refit node .arrowFunction).type =
              Variant.arrowFunction := by
            simp [refit, hn]
          have h2 : (refit node .arrowFunction).parentType =
              ParentType.variableDeclarator := by
            simp [refit, hn]
          have hde : isDefaultExport (refit node .arrowFunction) = false := by
            simp [isDefaultExport, h1]
          have hnn : hasName (refit node .arrowFunction) = true := by
            simp [hasName, h2]
          rw [specSelectedList]
          simp [hde, hnn, h1, htm]
      | functionExpression =>
          have h1 : (refit node .functionExpression).type =
              Variant.functionExpression := by
            simp [refit, hn]
          have h2 : (refit node .functionExpression).parentType =
              ParentType.variableDeclarator := by
            simp [refit, hn]
          have hde : isDefaultExport (refit node .functionExpression)
              = false := by
            simp [isDefaultExport, h1]
          have hnn : hasName (refit node .functionExpression) = true := by
            simp [hasName, h2]
          rw [specSelectedList]
          simp [hde, hnn, h1, htm]
  | false =>
      have htm : target ∈ cfg.unnamedConfig := by
        apply List.mem_of_mem_head?
        rw [Option.mem_def]
        simpa [generalHead, hn] using ht
      have hpt : node.parentType ≠ .variableDeclarator := by
        intro hc
        have := (hasName_iff node).mpr (Or.inr hc)
        simp [hn] at this
      have htfd : target ≠ .functionDeclaration := by
        rcases hv.unnamedOk target htm with h' | h' <;> simp [h']
      by_cases hc : target = Variant.functionExpression ∧
          node.parentType = ParentType.exportDefaultDeclaration
      · have hfd : Variant.functionDeclaration ∈ cfg.defaultExportNamedConfig := by
          by_contra hnfd
          exact hx ⟨hn, hc.2, hc.1, hnfd⟩
        have h1 : (refit node target).type = .functionDeclaration := by
          simp [refit, hn, hc]
        have h2 : (refit node target).parentType = .exportDefaultDeclaration := by
          simp [refit, hn, hc, hc.2]
        have hde : isDefaultExport (refit node target) = true := by
          simp [isDefaultExport, h1, h2]
        have hnn : hasName (refit node target) = true := by
          simp [hasName, h1]
        rw [specSelectedList]
        simp [hde, hnn, h1, hfd]
      · have h1 : (refit node target).type = target := by
          simp [refit, hn, hc]
        have h2 : (refit node target).parentType = node.parentType := by
          simp [refit, hn, hc]
        have hde : isDefaultExport (refit node target) = false := by
          simp [isDefaultExport, h1, htfd]
        have hnn : hasName (refit node target) = false := by
          simp [hasName, h1, h2, htfd, hpt]
        rw [specSelectedList]
        simp [hde, hnn, h1, htm]

theorem C6_roundtrip_amended_witness :
    validate srcAdd cfgNamedFnExpr true nodeAdd =
        some (Report.mk (some .functionExpression)
          (some (Fix.mk ⟨0, 52⟩ addFixText))) ∧
    validate "" cfgNamedFnExpr true (refit nodeAdd .functionExpression) =
      none :=
  ⟨by decide,
   C6_roundtrip_amended srcAdd "" cfgNamedFnExpr nodeAdd
     (Report.mk (some .functionExpression)
       (some (Fix.mk ⟨0, 52⟩ addFixText)))
     (Fix.mk ⟨0, 52⟩ addFixText) .functionExpression
     ⟨by decide, by decide, by decide⟩ (by decide) rfl (by decide)
     (by decide)⟩

end FCD
